import Mathlib

/-!
Verification of the Static Analysis Engine of the IOE repository
(`tools/static_analysis.py`), as a shallow embedding in Lean 4.

Modelling conventions:
* A source file is represented by `PyFile`: its raw text already split on
  the newline character (`lines`, exactly `content.split('\n')` in the
  source), together with the result of the external parsing collaborator
  (`ast?`): `some body` is the body of the parsed module, `none` represents
  a `SyntaxError` raised by the parser.  The parser itself (Python's `ast`
  module) is an external dependency of the repository, so its output is an
  input of the embedding, mirroring the spec's "SourceTree Parser
  (external collaborator)".
* Python dictionaries used as records become Lean structures; a dict key
  that may be absent becomes an `Option` field.  The empty `metrics` dict
  returned on a read failure becomes `none`.
* Python floats (coverage percentages, average function length) are
  modelled as rationals `ℚ`; the comparisons the tool performs are exact
  at the scales involved.
* Issue `message` strings are f-string templates applied to payloads; they
  are modelled by the inductive `Msg`, one constructor per template with
  its numeric/string payload (the decimal formatting of the payload is
  presentation only).
* Fallible file reading becomes an `Option PyFile` argument to
  `analyze_file` (`none` = the `open`/`read` raised).
* Regular-expression search (`re.search` with `re.IGNORECASE`) over the
  eight patterns of `SECURITY_PATTERNS` is embedded by a small
  backtracking matcher over the exact token sequences of those patterns
  (literals, `\s*`, `[^)]*`, `.*`, `s?`); fuel makes it structurally
  recursive so that concrete runs reduce in the kernel.
-/

/-- String constants reused below (severity names and fixed texts). -/
def sevHigh : String := "high"

def sevInfo : String := "info"

def sevWarning : String := "warning"

def sevError : String := "error"

def typeSecurity : String := "security"

def typeComplexity : String := "complexity"

def typeDocumentation : String := "documentation"

def typeError : String := "error"

/-- `suggestions.append(...)` texts of `analyze_file`, verbatim. -/
def sugBreakDown : String := "Consider breaking down complex functions into smaller ones"

def sugReduceNesting : String := "Reduce nesting depth by extracting functions or using early returns"

def sugSplitLong : String := "Consider breaking long functions into smaller, focused functions"

def sugFunctionDocs : String := "Add docstrings to functions for better documentation"

def sugClassDocs : String := "Add docstrings to classes for better documentation"

/-- Issue message templates of `static_analysis.py`, one constructor per
f-string, carrying the interpolated payload. -/
inductive Msg where
  | highComplexity (cc : Nat)
  | deepNesting (depth : Nat)
  | longFunctions (avg : ℚ)
  | lowFunctionDoc (coverage : ℚ)
  | lowClassDoc (coverage : ℚ)
  | security (text : String)
  | cannotRead
deriving DecidableEq, Repr

/-- An issue dictionary.  Keys that some producers omit are `Option`s:
the read-failure issue has no `severity`, `line`, `threshold` or `code`
key; complexity issues have no `line`/`code`; security issues have no
`threshold`. -/
structure Issue where
  type : String
  severity : Option String
  message : Msg
  line : Option Nat
  threshold : Option Nat
  code : Option String
deriving DecidableEq, Repr

/-- `ComplexityMetrics` dataclass. -/
structure ComplexityMetrics where
  cyclomatic_complexity : Nat
  lines_of_code : Nat
  function_count : Nat
  class_count : Nat
  max_nesting_depth : Nat
  avg_function_length : ℚ
deriving DecidableEq, Repr

/-- Result dict of `analyze_documentation`. -/
structure DocMetrics where
  function_docstring_coverage : ℚ
  class_docstring_coverage : ℚ
  total_functions : Nat
  total_classes : Nat
  documented_functions : Nat
  documented_classes : Nat
deriving DecidableEq, Repr

/-- Result dict of `DependencyAnalyzer.analyze_file`: the current file's
set of imports and the size of the instance-wide module set.  Python returns
`imports` as a list built from a set (unspecified order); the set itself
is the faithful observable. -/
structure DepResult where
  imports : Finset String
  total_modules : Nat
deriving DecidableEq

/-- The `metrics` dict assembled by `analyze_file` on the success path. -/
structure FileMetrics where
  complexity : ComplexityMetrics
  documentation : DocMetrics
  dependencies : DepResult
deriving DecidableEq

/-- `AnalysisResult` dataclass; `metrics = none` models the empty dict
`{}` of the read-failure path. -/
structure AnalysisResult where
  file_path : String
  issues : List Issue
  metrics : Option FileMetrics
  suggestions : List String
deriving DecidableEq

/-- The validated `--min-severity` CLI choice (click restricts it to
these three values). -/
inductive MinSeverity where
  | info
  | warning
  | error
deriving DecidableEq, Repr

/-!  ## The syntax-tree model

Only the node kinds the four analyzers inspect are distinguished; every
other statement kind is `stmtOther` with its child statements.  The
child lists use the mutually defined `AstList` so that all recursions
and inductions are plainly structural. -/

mutual

inductive Ast where
  | functionDef (lineno : Nat) (endLineno : Option Nat) (body : AstList)
  | asyncFunctionDef (lineno : Nat) (endLineno : Option Nat) (body : AstList)
  | classDef (body : AstList)
  | ifStmt (body : AstList) (orelse : AstList)
  | whileStmt (body : AstList) (orelse : AstList)
  | forStmt (body : AstList) (orelse : AstList)
  | tryStmt (body : AstList) (handlers : AstList) (orelse : AstList) (finalbody : AstList)
  | exceptHandler (body : AstList)
  | importStmt (names : List String)
  | importFromStmt (module? : Option String)
  | exprStr (s : String)
  | stmtOther (children : AstList)

inductive AstList where
  | nil
  | cons (a : Ast) (rest : AstList)

end

/-- A source file: its text split on newlines, and the external parser's
output (`none` = `SyntaxError`). -/
structure PyFile where
  lines : List String
  ast? : Option AstList

/-!  ## Security scanner (`SecurityAnalyzer` + `SECURITY_PATTERNS`)

The eight regular expressions use only literals, `\s*`, `[^)]*`, `.*`
and `s?`; `Tok` lists spell them out token by token.  Matching is
case-insensitive (`re.IGNORECASE`), and `re.search` succeeds if the
pattern matches starting at any position of the line. -/

inductive Tok where
  | lit (c : Char)
  | wsStar
  | notRparenStar
  | anyStar
  | opt (c : Char)
deriving DecidableEq, Repr

/-- ASCII lower-casing on code points, for `re.IGNORECASE`. -/
def lowerNat (c : Char) : Nat :=
  if 65 ≤ c.toNat ∧ c.toNat ≤ 90 then c.toNat + 32 else c.toNat

/-- Case-insensitive character comparison. -/
def charEqCI (a b : Char) : Bool :=
  lowerNat a == lowerNat b

/-- Membership in the `\s` class (` \t\n\r\f\v`). -/
def isPyWhitespace (c : Char) : Bool :=
  c.toNat == 32 || c.toNat == 9 || c.toNat == 10 || c.toNat == 13 || c.toNat == 12 || c.toNat == 11

/-- Python's `str.strip()`: drop leading and trailing whitespace.
Implemented over the character list so that it is structurally recursive
and evaluates inside the kernel (`String.trim` does not). -/
def pyStrip (s : String) : String :=
  ⟨((s.toList.dropWhile isPyWhitespace).reverse.dropWhile isPyWhitespace).reverse⟩

/-- Python's `str.startswith('#')`. -/
def startsWithHash (s : String) : Bool :=
  match s.toList with
  | c :: _ => c == '#'
  | [] => false

/-- Does the character class of a starred token accept `c`?  `.` matches
anything but a newline. -/
def starAccepts : Tok → Char → Bool
  | Tok.wsStar, c => isPyWhitespace c
  | Tok.notRparenStar, c => !(c == ')')
  | Tok.anyStar, c => !(c == '\n')
  | _, _ => false

/-- Does the token list match some prefix of `s`?  Backtracking matcher;
every recursive call strictly decreases `p.length + s.length`, so the
`fuel` parameter (structural recursion, kernel-reducible) never runs out
when initialised to more than that sum. -/
def rmatch : Nat → List Tok → List Char → Bool
  | 0, _, _ => false
  | _ + 1, [], _ => true
  | fuel + 1, Tok.lit c :: p, s =>
      match s with
      | [] => false
      | x :: s2 => charEqCI x c && rmatch fuel p s2
  | fuel + 1, Tok.opt c :: p, s =>
      (match s with
       | [] => false
       | x :: s2 => charEqCI x c && rmatch fuel p s2) ||
      rmatch fuel p s
  | fuel + 1, Tok.wsStar :: p, s =>
      rmatch fuel p s ||
      (match s with
       | [] => false
       | x :: s2 => starAccepts Tok.wsStar x && rmatch fuel (Tok.wsStar :: p) s2)
  | fuel + 1, Tok.notRparenStar :: p, s =>
      rmatch fuel p s ||
      (match s with
       | [] => false
       | x :: s2 => starAccepts Tok.notRparenStar x && rmatch fuel (Tok.notRparenStar :: p) s2)
  | fuel + 1, Tok.anyStar :: p, s =>
      rmatch fuel p s ||
      (match s with
       | [] => false
       | x :: s2 => starAccepts Tok.anyStar x && rmatch fuel (Tok.anyStar :: p) s2)

/-- `re.search`: try to match at every start position. -/
def rsearchFrom (p : List Tok) : List Char → Bool
  | [] => rmatch (p.length + 1) p []
  | x :: s => rmatch (p.length + (x :: s).length + 1) p (x :: s) || rsearchFrom p s

/-- Case-insensitive search of the token pattern inside the line. -/
def rsearch (p : List Tok) (line : String) : Bool :=
  rsearchFrom p line.toList

/-- Literal token run for a string (each character matched
case-insensitively, as `re.IGNORECASE` applies to the whole pattern). -/
def lits (s : String) : List Tok :=
  s.toList.map Tok.lit

/-- `SECURITY_PATTERNS`: the fixed ordered catalog of (pattern, message)
pairs, translated token by token from the regular expressions. -/
def SECURITY_PATTERNS : List (List Tok × String) :=
  [ (lits (r"eval") ++ [Tok.wsStar, Tok.lit '('], r"Use of eval() can be dangerous"),
    (lits (r"exec") ++ [Tok.wsStar, Tok.lit '('], r"Use of exec() can be dangerous"),
    (lits (r"subprocess.call") ++ [Tok.wsStar, Tok.lit '(', Tok.notRparenStar] ++
       lits (r"shell") ++ [Tok.wsStar, Tok.lit '=', Tok.wsStar] ++ lits (r"True"),
     r"Shell=True in subprocess can be risky"),
    (lits (r"pickle.load") ++ [Tok.opt 's', Tok.wsStar, Tok.lit '('],
     r"Pickle deserialization can be unsafe"),
    (lits (r"yaml.load") ++ [Tok.wsStar, Tok.lit '(', Tok.notRparenStar] ++
       lits (r"Loader") ++ [Tok.wsStar, Tok.lit '=', Tok.wsStar] ++ lits (r"yaml.Loader"),
     r"YAML unsafe loading"),
    (lits (r"request.args.get") ++ [Tok.lit '(', Tok.notRparenStar, Tok.lit ')'],
     r"Direct use of request parameters without validation"),
    (lits (r"sql") ++ [Tok.anyStar, Tok.lit '%', Tok.anyStar, Tok.lit '%'],
     r"Possible SQL injection vulnerability"),
    (lits (r"os.system") ++ [Tok.wsStar, Tok.lit '('], r"Use of os.system() can be dangerous") ]

/-- `SecurityAnalyzer.analyze_file`: enumerate lines 1-indexed; for each
line emit one `high`-severity issue per matching catalog rule, in catalog
order, with the stripped line text as `code`. -/
def SecurityAnalyzer.analyze_file (f : PyFile) : List Issue :=
  (List.enumFrom 1 f.lines).flatMap (fun il =>
    SECURITY_PATTERNS.filterMap (fun pm =>
      if rsearch pm.1 il.2 then
        some { type := typeSecurity, severity := some sevHigh, message := Msg.security pm.2,
               line := some il.1, threshold := none, code := some (pyStrip il.2) }
      else none))

/-!  ## Complexity visitor (`ComplexityAnalyzer`)

The NodeVisitor dispatch of the source, written as mutual structural
recursion: every constructor's handler mirrors the corresponding
`visit_*` method; node kinds without a handler fall through to
`generic_visit` (visit the children, change nothing). -/

/-- The mutable fields of `ComplexityAnalyzer` that the visitor touches
(`lines_of_code` is set after the traversal by `analyze_complexity`). -/
structure CState where
  complexity : Nat
  nesting_depth : Nat
  max_nesting_depth : Nat
  function_count : Nat
  class_count : Nat
  function_lengths : List Nat
deriving DecidableEq, Repr

def CState.init : CState :=
  { complexity := 0, nesting_depth := 0, max_nesting_depth := 0,
    function_count := 0, class_count := 0, function_lengths := [] }

/-- `visit_FunctionDef` body-independent part: bump the count and record
the length when `end_lineno` resolves. -/
def CState.enterFunction (s : CState) (lineno : Nat) (endLineno : Option Nat) : CState :=
  { s with function_count := s.function_count + 1,
           function_lengths :=
             match endLineno with
             | some e => s.function_lengths ++ [e - lineno + 1]
             | none => s.function_lengths }

/-- Increment the nesting depth and fold it into the maximum. -/
def CState.push (s : CState) : CState :=
  { s with nesting_depth := s.nesting_depth + 1,
           max_nesting_depth := max s.max_nesting_depth (s.nesting_depth + 1) }

/-- Decrement the nesting depth (the `self.nesting_depth -= 1` on leaving). -/
def CState.pop (s : CState) : CState :=
  { s with nesting_depth := s.nesting_depth - 1 }

mutual

def cVisit (s : CState) : Ast → CState
  | Ast.functionDef lineno endLineno body =>
      (cVisitList ((s.enterFunction lineno endLineno).push) body).pop
  | Ast.asyncFunctionDef lineno endLineno body =>
      (cVisitList ((s.enterFunction lineno endLineno).push) body).pop
  | Ast.classDef body =>
      (cVisitList ({ s with class_count := s.class_count + 1 }.push) body).pop
  | Ast.ifStmt body orelse =>
      (cVisitList (cVisitList ({ s with complexity := s.complexity + 1 }.push) body) orelse).pop
  | Ast.whileStmt body orelse =>
      (cVisitList (cVisitList ({ s with complexity := s.complexity + 1 }.push) body) orelse).pop
  | Ast.forStmt body orelse =>
      (cVisitList (cVisitList ({ s with complexity := s.complexity + 1 }.push) body) orelse).pop
  | Ast.tryStmt body handlers orelse finalbody =>
      (cVisitList (cVisitList (cVisitList (cVisitList
        ({ s with complexity := s.complexity + 1 }.push) body) handlers) orelse) finalbody).pop
  | Ast.exceptHandler body =>
      cVisitList { s with complexity := s.complexity + 1 } body
  | Ast.importStmt _ => s
  | Ast.importFromStmt _ => s
  | Ast.exprStr _ => s
  | Ast.stmtOther children => cVisitList s children

def cVisitList (s : CState) : AstList → CState
  | AstList.nil => s
  | AstList.cons a rest => cVisitList (cVisit s a) rest

end

/-- The LOC filter of `analyze_complexity`: non-blank after strip and not
starting with the comment marker. -/
def significantLine (line : String) : Bool :=
  !(pyStrip line == "") && !(startsWithHash (pyStrip line))

/-- `analyze_complexity`: parse failure yields all zeros; otherwise run
the visitor over the module body, count significant lines, and average
the recorded function lengths (0 when none). -/
def analyze_complexity (f : PyFile) : ComplexityMetrics :=
  match f.ast? with
  | none => { cyclomatic_complexity := 0, lines_of_code := 0, function_count := 0,
              class_count := 0, max_nesting_depth := 0, avg_function_length := 0 }
  | some body =>
      let st := cVisitList CState.init body
      let avg : ℚ :=
        if st.function_lengths.isEmpty then 0
        else mkRat (st.function_lengths.sum : Int) st.function_lengths.length
      { cyclomatic_complexity := st.complexity,
        lines_of_code := (f.lines.filter significantLine).length,
        function_count := st.function_count,
        class_count := st.class_count,
        max_nesting_depth := st.max_nesting_depth,
        avg_function_length := avg }

/-!  ## Documentation analyzer (`analyze_documentation`)

`ast.walk` visits every node; `isinstance(node, ast.FunctionDef)` is an
exact test in CPython's `ast` (`AsyncFunctionDef` is a distinct class,
not a subclass), so async definitions are not counted.
`ast.get_docstring` is truthy exactly when the first body statement is a
string constant whose cleaned text is non-empty. -/

/-- Is the node's first body statement a truthy docstring? -/
def hasDocstring : AstList → Bool
  | AstList.cons (Ast.exprStr s) _ => !(pyStrip s == "")
  | _ => false

/-- Counters accumulated by the documentation walk. -/
structure DocCounts where
  total_functions : Nat
  documented_functions : Nat
  total_classes : Nat
  documented_classes : Nat
deriving DecidableEq, Repr

def DocCounts.zero : DocCounts :=
  { total_functions := 0, documented_functions := 0, total_classes := 0, documented_classes := 0 }

def DocCounts.add (a b : DocCounts) : DocCounts :=
  { total_functions := a.total_functions + b.total_functions,
    documented_functions := a.documented_functions + b.documented_functions,
    total_classes := a.total_classes + b.total_classes,
    documented_classes := a.documented_classes + b.documented_classes }

mutual

def docCounts : Ast → DocCounts
  | Ast.functionDef _ _ body =>
      DocCounts.add { total_functions := 1,
                      documented_functions := if hasDocstring body then 1 else 0,
                      total_classes := 0, documented_classes := 0 }
        (docCountsList body)
  | Ast.asyncFunctionDef _ _ body => docCountsList body
  | Ast.classDef body =>
      DocCounts.add { total_functions := 0, documented_functions := 0,
                      total_classes := 1,
                      documented_classes := if hasDocstring body then 1 else 0 }
        (docCountsList body)
  | Ast.ifStmt body orelse => DocCounts.add (docCountsList body) (docCountsList orelse)
  | Ast.whileStmt body orelse => DocCounts.add (docCountsList body) (docCountsList orelse)
  | Ast.forStmt body orelse => DocCounts.add (docCountsList body) (docCountsList orelse)
  | Ast.tryStmt body handlers orelse finalbody =>
      DocCounts.add (DocCounts.add (docCountsList body) (docCountsList handlers))
        (DocCounts.add (docCountsList orelse) (docCountsList finalbody))
  | Ast.exceptHandler body => docCountsList body
  | Ast.importStmt _ => DocCounts.zero
  | Ast.importFromStmt _ => DocCounts.zero
  | Ast.exprStr _ => DocCounts.zero
  | Ast.stmtOther children => docCountsList children

def docCountsList : AstList → DocCounts
  | AstList.nil => DocCounts.zero
  | AstList.cons a rest => DocCounts.add (docCounts a) (docCountsList rest)

end

/-- `analyze_documentation`: parse failure yields the all-zero dict;
otherwise coverage is `documented/total*100`, `0` when the total is 0. -/
def analyze_documentation (f : PyFile) : DocMetrics :=
  match f.ast? with
  | none =>
      { function_docstring_coverage := 0, class_docstring_coverage := 0,
        total_functions := 0, total_classes := 0,
        documented_functions := 0, documented_classes := 0 }
  | some body =>
      let c := docCountsList body
      { function_docstring_coverage :=
          if 0 < c.total_functions then
            mkRat ((c.documented_functions : Int) * 100) c.total_functions
          else 0,
        class_docstring_coverage :=
          if 0 < c.total_classes then
            mkRat ((c.documented_classes : Int) * 100) c.total_classes
          else 0,
        total_functions := c.total_functions,
        total_classes := c.total_classes,
        documented_functions := c.documented_functions,
        documented_classes := c.documented_classes }

/-!  ## Dependency analyzer (`DependencyAnalyzer`)

An instance owns two mutable containers: `imports` (per-path sets) and
`modules` (the instance-wide union).  `analyze_file` walks the tree
adding `alias.name` for plain imports and `node.module` (when truthy)
for from-imports, then reports the current path's set and the size of
`modules`.  A `SyntaxError` skips the walk but still reports. -/

mutual

def modsOf : Ast → Finset String
  | Ast.functionDef _ _ body => modsOfList body
  | Ast.asyncFunctionDef _ _ body => modsOfList body
  | Ast.classDef body => modsOfList body
  | Ast.ifStmt body orelse => modsOfList body ∪ modsOfList orelse
  | Ast.whileStmt body orelse => modsOfList body ∪ modsOfList orelse
  | Ast.forStmt body orelse => modsOfList body ∪ modsOfList orelse
  | Ast.tryStmt body handlers orelse finalbody =>
      (modsOfList body ∪ modsOfList handlers) ∪ (modsOfList orelse ∪ modsOfList finalbody)
  | Ast.exceptHandler body => modsOfList body
  | Ast.importStmt names => names.toFinset
  | Ast.importFromStmt module? =>
      match module? with
      | some m => if m == "" then ∅ else {m}
      | none => ∅
  | Ast.exprStr _ => ∅
  | Ast.stmtOther children => modsOfList children

def modsOfList : AstList → Finset String
  | AstList.nil => ∅
  | AstList.cons a rest => modsOf a ∪ modsOfList rest

end

/-- The module identifiers a file contributes (`∅` on parse failure). -/
def fileModules (f : PyFile) : Finset String :=
  match f.ast? with
  | none => ∅
  | some body => modsOfList body

/-- The mutable state of one `DependencyAnalyzer` instance. -/
structure DepState where
  imports : List (String × Finset String)
  modules : Finset String

def DepState.init : DepState :=
  { imports := [], modules := ∅ }

/-- `self.imports[path]` with the defaultdict-empty fallback. -/
def DepState.importsOf (st : DepState) (path : String) : Finset String :=
  ((st.imports.lookup path).getD ∅)

/-- Replace (or create) the per-path entry. -/
def DepState.setImports (st : DepState) (path : String) (v : Finset String) : DepState :=
  { st with imports := (path, v) :: st.imports.eraseP (fun e => e.1 == path) }

/-- `DependencyAnalyzer.analyze_file` as a state transition returning the
result dict. -/
def DependencyAnalyzer.analyze_file (st : DepState) (path : String) (f : PyFile) :
    DepState × DepResult :=
  match f.ast? with
  | none =>
      (st, { imports := st.importsOf path, total_modules := st.modules.card })
  | some body =>
      let fm := modsOfList body
      let newImports := st.importsOf path ∪ fm
      let st2 := { (st.setImports path newImports) with modules := st.modules ∪ fm }
      (st2, { imports := newImports, total_modules := st2.modules.card })

/-- Analyze a list of files on one shared `DependencyAnalyzer` instance,
collecting the per-call results (the "engine instance" reading of the
spec's shared module set). -/
def depRunResults (st : DepState) : List (String × PyFile) → List DepResult
  | [] => []
  | pf :: rest =>
      let sr := DependencyAnalyzer.analyze_file st pf.1 pf.2
      sr.2 :: depRunResults sr.1 rest

/-- The running unions `m ∪ mods f1`, `m ∪ mods f1 ∪ mods f2`, ... that
a shared instance accumulates. -/
def prefixModuleUnions (m : Finset String) : List (String × PyFile) → List (Finset String)
  | [] => []
  | pf :: rest =>
      let m2 := m ∪ fileModules pf.2
      m2 :: prefixModuleUnions m2 rest

/-!  ## File analyzer orchestrator (`analyze_file`)

The read is the only fallible step: `content? = none` models the
`open`/`read` raising, handled by returning the synthetic result whose
single issue dict is `{'type': 'error', 'message': ...}` — note that it
carries no `severity` key.  On success the issue list is built in source
order: complexity threshold issues, then the security issues verbatim,
then the documentation threshold issues; suggestions are appended under
the same conditions. -/

def COMPLEXITY_THRESHOLDS_function_lines : Nat := 50

def COMPLEXITY_THRESHOLDS_nesting_depth : Nat := 4

def COMPLEXITY_THRESHOLDS_cyclomatic_complexity : Nat := 10

/-- The `{'type': 'complexity', 'severity': 'warning', ...}` issue for a
high cyclomatic complexity. -/
def ccIssue (cc : Nat) : Issue :=
  { type := typeComplexity, severity := some sevWarning, message := Msg.highComplexity cc,
    line := none, threshold := some COMPLEXITY_THRESHOLDS_cyclomatic_complexity, code := none }

/-- The deep-nesting warning issue. -/
def nestingIssue (d : Nat) : Issue :=
  { type := typeComplexity, severity := some sevWarning, message := Msg.deepNesting d,
    line := none, threshold := some COMPLEXITY_THRESHOLDS_nesting_depth, code := none }

/-- The long-functions info issue. -/
def longFunctionsIssue (avg : ℚ) : Issue :=
  { type := typeComplexity, severity := some sevInfo, message := Msg.longFunctions avg,
    line := none, threshold := some COMPLEXITY_THRESHOLDS_function_lines, code := none }

/-- The low function-docstring-coverage info issue. -/
def funcDocIssue (cov : ℚ) : Issue :=
  { type := typeDocumentation, severity := some sevInfo, message := Msg.lowFunctionDoc cov,
    line := none, threshold := none, code := none }

/-- The low class-docstring-coverage info issue. -/
def classDocIssue (cov : ℚ) : Issue :=
  { type := typeDocumentation, severity := some sevInfo, message := Msg.lowClassDoc cov,
    line := none, threshold := none, code := none }

/-- The synthetic read-failure issue (the exception text interpolated
into the message is environment data, dropped by the model). -/
def cannotReadIssue : Issue :=
  { type := typeError, severity := none, message := Msg.cannotRead,
    line := none, threshold := none, code := none }

/-- The three `if complexity.x > THRESHOLD` issue appends of
`analyze_file`, in source order. -/
def complexityIssues (cm : ComplexityMetrics) : List Issue :=
  (if COMPLEXITY_THRESHOLDS_cyclomatic_complexity < cm.cyclomatic_complexity
   then [ccIssue cm.cyclomatic_complexity] else []) ++
  (if COMPLEXITY_THRESHOLDS_nesting_depth < cm.max_nesting_depth
   then [nestingIssue cm.max_nesting_depth] else []) ++
  (if (50 : ℚ) < cm.avg_function_length
   then [longFunctionsIssue cm.avg_function_length] else [])

/-- The matching `suggestions.append` calls of the complexity block. -/
def complexitySuggestions (cm : ComplexityMetrics) : List String :=
  (if COMPLEXITY_THRESHOLDS_cyclomatic_complexity < cm.cyclomatic_complexity
   then [sugBreakDown] else []) ++
  (if COMPLEXITY_THRESHOLDS_nesting_depth < cm.max_nesting_depth
   then [sugReduceNesting] else []) ++
  (if (50 : ℚ) < cm.avg_function_length then [sugSplitLong] else [])

/-- The two documentation-coverage issue appends of `analyze_file`. -/
def docIssues (dm : DocMetrics) : List Issue :=
  (if dm.function_docstring_coverage < 50
   then [funcDocIssue dm.function_docstring_coverage] else []) ++
  (if dm.class_docstring_coverage < 70
   then [classDocIssue dm.class_docstring_coverage] else [])

/-- The matching `suggestions.append` calls of the documentation block. -/
def docSuggestions (dm : DocMetrics) : List String :=
  (if dm.function_docstring_coverage < 50 then [sugFunctionDocs] else []) ++
  (if dm.class_docstring_coverage < 70 then [sugClassDocs] else [])

/-- `analyze_file`. -/
def analyze_file (file_path : String) (content? : Option PyFile) : AnalysisResult :=
  match content? with
  | none =>
      { file_path := file_path, issues := [cannotReadIssue], metrics := none, suggestions := [] }
  | some f =>
      let complexity := analyze_complexity f
      let security_issues := SecurityAnalyzer.analyze_file f
      let doc_analysis := analyze_documentation f
      let dep := DependencyAnalyzer.analyze_file DepState.init file_path f
      { file_path := file_path,
        issues := complexityIssues complexity ++ security_issues ++ docIssues doc_analysis,
        metrics := some { complexity := complexity, documentation := doc_analysis,
                          dependencies := dep.2 },
        suggestions := complexitySuggestions complexity ++ docSuggestions doc_analysis }

/-- The `analyze` command's per-file loop over readable files. -/
def runScan (files : List (String × PyFile)) : List AnalysisResult :=
  files.map (fun pf => analyze_file pf.1 (some pf.2))

/-!  ## Report renderers

Both the text and the JSON renderer filter with the same comprehension:
`severity_levels.get(issue.get('severity', 'info'), 1) >= min_level`
where `severity_levels = {'info': 1, 'warning': 2, 'error': 3}`.  An
absent severity falls back to `'info'`; a severity outside the dict
(such as the scanner's `'high'`) falls back to the default level 1. -/

/-- The numeric level of the validated `--min-severity` choice. -/
def minLevel : MinSeverity → Nat
  | MinSeverity.info => 1
  | MinSeverity.warning => 2
  | MinSeverity.error => 3

/-- `severity_levels.get(issue.get('severity', 'info'), 1)`. -/
def issueLevel (i : Issue) : Nat :=
  match i.severity with
  | none => 1
  | some s =>
      if s == sevInfo then 1
      else if s == sevWarning then 2
      else if s == sevError then 3
      else 1

/-- The severity filter shared by the text and JSON renderers. -/
def filterIssues (ms : MinSeverity) (issues : List Issue) : List Issue :=
  issues.filter (fun i => minLevel ms ≤ issueLevel i)

/-- Helper for `baseName`: keep the characters after the last slash. -/
def baseNameAux : List Char → List Char → List Char
  | [], acc => acc.reverse
  | c :: rest, acc => if c == '/' then baseNameAux rest [] else baseNameAux rest (c :: acc)

/-- `Path(p).name`: the final path component. -/
def baseName (p : String) : String :=
  ⟨baseNameAux p.toList []⟩

/-- Order-preserving deduplication, as the text report's suggestion loop. -/
def uniquePreserve (l : List String) : List String :=
  l.foldl (fun acc s => if s ∈ acc then acc else acc ++ [s]) []

/-- One row of the text report's summary table. -/
structure TextRow where
  file_name : String
  issue_count : Nat
  complexity : Nat
  loc : Nat
  doc_coverage : ℚ
deriving DecidableEq

/-- The observable data printed by `generate_text_report`: the summary
rows, the total filtered-issue count, the detailed per-file issue
listings (only files with a nonempty filtered list are printed), and the
deduplicated global suggestion list. -/
structure TextReportData where
  rows : List TextRow
  total_issues : Nat
  detailed : List (String × List Issue)
  unique_suggestions : List String
deriving DecidableEq

/-- `generate_text_report`, as the data it renders. -/
def generate_text_report (results : List AnalysisResult) (ms : MinSeverity) : TextReportData :=
  { rows := results.map (fun r =>
      { file_name := baseName r.file_path,
        issue_count := (filterIssues ms r.issues).length,
        complexity := (r.metrics.map (fun m => m.complexity.cyclomatic_complexity)).getD 0,
        loc := (r.metrics.map (fun m => m.complexity.lines_of_code)).getD 0,
        doc_coverage := (r.metrics.map (fun m => m.documentation.function_docstring_coverage)).getD 0 }),
    total_issues := (results.map (fun r => (filterIssues ms r.issues).length)).sum,
    detailed := (results.map (fun r => (baseName r.file_path, filterIssues ms r.issues))).filter
      (fun p => !p.2.isEmpty),
    unique_suggestions := uniquePreserve (results.flatMap (fun r => r.suggestions)) }

/-- `summary` block of the JSON report. -/
structure JsonSummary where
  total_files : Nat
  total_issues : Nat
  total_suggestions : Nat
deriving DecidableEq

/-- One entry of the JSON report's `files` array. -/
structure JsonFileData where
  path : String
  issues : List Issue
  metrics : Option FileMetrics
  suggestions : List String
deriving DecidableEq

/-- The JSON report (metadata's tool/version/timestamp strings are
presentation only and omitted; `min_severity` is kept). -/
structure JsonReport where
  min_severity : MinSeverity
  summary : JsonSummary
  files : List JsonFileData
deriving DecidableEq

/-- `generate_json_report`. -/
def generate_json_report (results : List AnalysisResult) (ms : MinSeverity) : JsonReport :=
  { min_severity := ms,
    summary :=
      { total_files := results.length,
        total_issues := (results.map (fun r => (filterIssues ms r.issues).length)).sum,
        total_suggestions := (results.map (fun r => r.suggestions.length)).sum },
    files := results.map (fun r =>
      { path := r.file_path, issues := filterIssues ms r.issues,
        metrics := r.metrics, suggestions := r.suggestions }) }

/-!  ## Concrete inputs used by the theorems below -/

/-- Convert a plain list into the mutual `AstList`. -/
def astList : List Ast → AstList
  | [] => AstList.nil
  | a :: rest => AstList.cons a (astList rest)

/-- The spec's concrete scenario file: one undocumented function, two
nested ifs inside one for loop, and an `os.system` call on line 5. -/
def c2Line5 : String := "                os.system(\"rm -rf /tmp/x\")"

def c2File : PyFile :=
  { lines := [r"def foo():", r"    for i in range(10):", r"        if a:",
              r"            if b:", c2Line5],
    ast? := some (astList
      [Ast.functionDef 1 (some 5) (astList
        [Ast.forStmt (astList
          [Ast.ifStmt (astList
            [Ast.ifStmt (astList [Ast.stmtOther AstList.nil]) AstList.nil])
            AstList.nil])
          AstList.nil])]) }

def c2Path : String := "scenario.py"

/-!  ## Auxiliary counting functions and predicates for the theorems -/

mutual

/-- Number of nodes the complexity visitor counts as functions
(both sync and async definitions). -/
def defCount : Ast → Nat
  | Ast.functionDef _ _ body => 1 + defCountList body
  | Ast.asyncFunctionDef _ _ body => 1 + defCountList body
  | Ast.classDef body => defCountList body
  | Ast.ifStmt body orelse => defCountList body + defCountList orelse
  | Ast.whileStmt body orelse => defCountList body + defCountList orelse
  | Ast.forStmt body orelse => defCountList body + defCountList orelse
  | Ast.tryStmt body handlers orelse finalbody =>
      defCountList body + defCountList handlers + defCountList orelse + defCountList finalbody
  | Ast.exceptHandler body => defCountList body
  | Ast.importStmt _ => 0
  | Ast.importFromStmt _ => 0
  | Ast.exprStr _ => 0
  | Ast.stmtOther children => defCountList children

def defCountList : AstList → Nat
  | AstList.nil => 0
  | AstList.cons a rest => defCount a + defCountList rest

end

mutual

/-- True when the tree contains no (sync) function definition and no
class definition anywhere. -/
def noSyncDefs : Ast → Bool
  | Ast.functionDef _ _ _ => false
  | Ast.asyncFunctionDef _ _ body => noSyncDefsList body
  | Ast.classDef _ => false
  | Ast.ifStmt body orelse => noSyncDefsList body && noSyncDefsList orelse
  | Ast.whileStmt body orelse => noSyncDefsList body && noSyncDefsList orelse
  | Ast.forStmt body orelse => noSyncDefsList body && noSyncDefsList orelse
  | Ast.tryStmt body handlers orelse finalbody =>
      ((noSyncDefsList body && noSyncDefsList handlers) &&
       (noSyncDefsList orelse && noSyncDefsList finalbody))
  | Ast.exceptHandler body => noSyncDefsList body
  | Ast.importStmt _ => true
  | Ast.importFromStmt _ => true
  | Ast.exprStr _ => true
  | Ast.stmtOther children => noSyncDefsList children

def noSyncDefsList : AstList → Bool
  | AstList.nil => true
  | AstList.cons a rest => noSyncDefs a && noSyncDefsList rest

end

mutual

/-- True when the tree contains an async function definition somewhere. -/
def hasAsyncDef : Ast → Bool
  | Ast.functionDef _ _ body => hasAsyncDefList body
  | Ast.asyncFunctionDef _ _ _ => true
  | Ast.classDef body => hasAsyncDefList body
  | Ast.ifStmt body orelse => hasAsyncDefList body || hasAsyncDefList orelse
  | Ast.whileStmt body orelse => hasAsyncDefList body || hasAsyncDefList orelse
  | Ast.forStmt body orelse => hasAsyncDefList body || hasAsyncDefList orelse
  | Ast.tryStmt body handlers orelse finalbody =>
      ((hasAsyncDefList body || hasAsyncDefList handlers) ||
       (hasAsyncDefList orelse || hasAsyncDefList finalbody))
  | Ast.exceptHandler body => hasAsyncDefList body
  | Ast.importStmt _ => false
  | Ast.importFromStmt _ => false
  | Ast.exprStr _ => false
  | Ast.stmtOther children => hasAsyncDefList children

def hasAsyncDefList : AstList → Bool
  | AstList.nil => false
  | AstList.cons a rest => hasAsyncDef a || hasAsyncDefList rest

end

/-!  ## Further concrete inputs -/

/-- A file the parser rejects. -/
def malformedFile : PyFile :=
  { lines := [r"def broken(:"], ast? := none }

def unreadablePath : String := "unreadable.py"

/-- A security issue exactly as the scanner emits it (severity `high`). -/
def highIssueExample : Issue :=
  { type := typeSecurity, severity := some sevHigh,
    message := Msg.security (r"Use of eval() can be dangerous"),
    line := some 1, threshold := none, code := some (r"eval(x)") }

/-- A result holding only that high-severity issue. -/
def highResult : AnalysisResult :=
  { file_path := "app.py", issues := [highIssueExample], metrics := none, suggestions := [] }

/-- One info, one warning and one error issue, for the renderer scenario. -/
def infoIssueEx : Issue := funcDocIssue 0

def warnIssueEx : Issue := ccIssue 12

def errIssueEx : Issue :=
  { type := typeError, severity := some sevError, message := Msg.cannotRead,
    line := none, threshold := none, code := none }

def c6Result : AnalysisResult :=
  { file_path := "mixed.py", issues := [infoIssueEx, warnIssueEx, errIssueEx],
    metrics := none, suggestions := [r"a suggestion"] }

/-- A line whose `eval(` sits inside a string literal. -/
def c7StrLine : String := "x = \"eval(y)\""

def c7StrFile : PyFile :=
  { lines := [c7StrLine], ast? := some (astList [Ast.stmtOther AstList.nil]) }

/-- One line matching two catalog rules (`eval\s*\(` and `exec\s*\(`). -/
def c7TwoFile : PyFile :=
  { lines := [r"eval(exec(x))"], ast? := some (astList [Ast.stmtOther AstList.nil]) }

/-- Upper-case spelling with blanks, matched case-insensitively. -/
def c7UpperFile : PyFile :=
  { lines := [r"EVAL (x)"], ast? := some (astList [Ast.stmtOther AstList.nil]) }

/-- Two lines; only the second one matches, so its issue carries line 2. -/
def c7TwoLineFile : PyFile :=
  { lines := [r"import os", r"os.system(x)"],
    ast? := some (astList [Ast.importStmt [r"os"], Ast.stmtOther AstList.nil]) }

/-- Two one-import files for the dependency claims. -/
def c4File1 : PyFile :=
  { lines := [r"import alpha"], ast? := some (astList [Ast.importStmt [r"alpha"]]) }

def c4File2 : PyFile :=
  { lines := [r"import beta"], ast? := some (astList [Ast.importStmt [r"beta"]]) }

/-- The module body of a file whose only definition is async. -/
def asyncOnlyBody : AstList :=
  astList [Ast.asyncFunctionDef 1 (some 2) (astList [Ast.stmtOther AstList.nil])]

/-- A file whose only definition is an async function. -/
def asyncOnlyFile : PyFile :=
  { lines := [r"async def f():", r"    pass"], ast? := some asyncOnlyBody }

/-- The issue the scanner emits for the string-literal `eval(` line. -/
def evalStrIssue : Issue :=
  { type := typeSecurity, severity := some sevHigh,
    message := Msg.security (r"Use of eval() can be dangerous"),
    line := some 1, threshold := none, code := some (pyStrip c7StrLine) }

/-!  ## Helper lemmas -/

/-- Membership in a conditional singleton. -/
theorem mem_ite_singleton {α : Type} (c : Prop) [Decidable c] (a b : α) :
    (a ∈ (if c then [b] else [])) ↔ (c ∧ a = b) := by
  split <;> simp_all

/-- Fidelity of the coverage embedding: the `mkRat` form used in
`analyze_documentation` is exactly the source's `documented / total * 100`. -/
theorem coverage_mkRat_eq (d t : Nat) :
    mkRat ((d : Int) * 100) t = ((d : ℚ) / (t : ℚ)) * 100 := by
  rw [Rat.mkRat_eq_divInt, Rat.divInt_eq_div]
  push_cast
  ring

/-- Fidelity of the average embedding: the `mkRat` form used in
`analyze_complexity` is exactly the source's `sum(lengths) / len(lengths)`. -/
theorem avg_mkRat_eq (s n : Nat) :
    mkRat (s : Int) n = (s : ℚ) / (n : ℚ) := by
  rw [Rat.mkRat_eq_divInt, Rat.divInt_eq_div]
  push_cast
  ring

/-- Characterization of the security scanner output: an issue is emitted
exactly for a 1-indexed line and a catalog rule matching it. -/
theorem mem_security_iff (f : PyFile) (i : Issue) :
    i ∈ SecurityAnalyzer.analyze_file f ↔
      ∃ il ∈ List.enumFrom 1 f.lines, ∃ pm ∈ SECURITY_PATTERNS,
        rsearch pm.1 il.2 = true ∧
        i = { type := typeSecurity, severity := some sevHigh, message := Msg.security pm.2,
              line := some il.1, threshold := none, code := some (pyStrip il.2) } := by
  simp only [SecurityAnalyzer.analyze_file, List.mem_flatMap, List.mem_filterMap]
  constructor
  · rintro ⟨il, hil, pm, hpm, hout⟩
    split at hout
    · exact ⟨il, hil, pm, hpm, by assumption, (Option.some_inj.mp hout).symm⟩
    · exact absurd hout (by simp)
  · rintro ⟨il, hil, pm, hpm, hr, rfl⟩
    exact ⟨il, hil, pm, hpm, by simp [hr]⟩

/-- Every scanner issue's message uses the security template. -/
theorem security_message (f : PyFile) (i : Issue) (h : i ∈ SecurityAnalyzer.analyze_file f) :
    ∃ s, i.message = Msg.security s := by
  rcases (mem_security_iff f i).mp h with ⟨il, -, pm, -, -, rfl⟩
  exact ⟨pm.2, rfl⟩

/-- Unfolding of the success-path issue list. -/
theorem analyze_file_issues (path : String) (f : PyFile) :
    (analyze_file path (some f)).issues =
      complexityIssues (analyze_complexity f) ++ SecurityAnalyzer.analyze_file f ++
        docIssues (analyze_documentation f) := rfl

/-- Unfolding of the success-path suggestion list. -/
theorem analyze_file_suggestions (path : String) (f : PyFile) :
    (analyze_file path (some f)).suggestions =
      complexitySuggestions (analyze_complexity f) ++ docSuggestions (analyze_documentation f) :=
  rfl

/-!  ## C5 -/

/-- C5: for every file whose content fails to parse, `analyze_complexity`
and `analyze_documentation` both return all-zero metrics instead of
raising, so one malformed file cannot abort a project-wide scan. -/
theorem parse_failure_zero_metrics (f : PyFile) (h : f.ast? = none) :
    analyze_complexity f =
      { cyclomatic_complexity := 0, lines_of_code := 0, function_count := 0,
        class_count := 0, max_nesting_depth := 0, avg_function_length := 0 } ∧
    analyze_documentation f =
      { function_docstring_coverage := 0, class_docstring_coverage := 0,
        total_functions := 0, total_classes := 0,
        documented_functions := 0, documented_classes := 0 } := by
  constructor <;> simp [analyze_complexity, analyze_documentation, h]

/-- C5 witness: the all-zero outcome at a concrete malformed file. -/
theorem parse_failure_zero_metrics_witness :
    malformedFile.ast? = none ∧
    (analyze_complexity malformedFile).cyclomatic_complexity = 0 ∧
    (analyze_documentation malformedFile).total_functions = 0 :=
  ⟨rfl, by rw [(parse_failure_zero_metrics malformedFile rfl).1],
    by rw [(parse_failure_zero_metrics malformedFile rfl).2]⟩

/-!  ## C3 -/

/-- C3 counterexample: on a read failure the single synthetic issue has
no `severity` key at all — in particular its severity is not `error`, so
the claim's "issue of error severity" is false on the code (the issue's
`type` is `error`, its severity is absent). -/
theorem read_failure_issue_severity_absent :
    ((analyze_file unreadablePath none).issues.map Issue.severity) = [none] ∧
    ((analyze_file unreadablePath none).issues.map Issue.type) = [typeError] ∧
    (none : Option String) ≠ some sevError := by
  refine ⟨rfl, rfl, by decide⟩

/-- C3 (amended): for every file path whose content cannot be read,
`analyze_file` returns normally with exactly one synthetic issue whose
`type` is `error` and which carries no severity field, together with
empty metrics and an empty suggestion list. -/
theorem read_failure_single_issue (path : String) :
    analyze_file path none =
      { file_path := path, issues := [cannotReadIssue], metrics := none, suggestions := [] } ∧
    cannotReadIssue.type = typeError ∧ cannotReadIssue.severity = none :=
  ⟨rfl, rfl, rfl⟩

/-!  ## C2 -/

/-- C2: the spec's concrete scenario — one undocumented function, two
nested ifs inside one for loop, one `os.system` line — yields cyclomatic
complexity 3, a function-documentation-coverage issue (0% < 50%), a
security issue referencing the `os.system` line (line 5), and exactly
three issues in total at the `info` threshold (the third being the
class-documentation issue, since 0% < 70% holds with zero classes). -/
theorem c2_concrete_scenario :
    ((analyze_file c2Path (some c2File)).metrics.map
        (fun m => m.complexity.cyclomatic_complexity)) = some 3 ∧
    (analyze_file c2Path (some c2File)).issues =
      [ { type := typeSecurity, severity := some sevHigh,
          message := Msg.security (r"Use of os.system() can be dangerous"),
          line := some 5, threshold := none, code := some (pyStrip c2Line5) },
        funcDocIssue 0, classDocIssue 0 ] ∧
    (filterIssues MinSeverity.info (analyze_file c2Path (some c2File)).issues).length = 3 := by
  refine ⟨by decide, by decide, by decide⟩

/-!  ## C4 -/

/-- On one shared instance the reported totals are the cards of the
running unions. -/
theorem depRunResults_totals (st : DepState) (files : List (String × PyFile)) :
    (depRunResults st files).map DepResult.total_modules =
      (prefixModuleUnions st.modules files).map Finset.card := by
  induction files generalizing st with
  | nil => rfl
  | cons pf rest ih =>
      cases h : pf.2.ast? with
      | none =>
          simp [depRunResults, DependencyAnalyzer.analyze_file, h, prefixModuleUnions,
            fileModules, ih, DepState.setImports]
      | some body =>
          simp [depRunResults, DependencyAnalyzer.analyze_file, h, prefixModuleUnions,
            fileModules, ih, DepState.setImports]

/-- The running unions grow monotonically. -/
theorem prefixModuleUnions_chain (m : Finset String) (files : List (String × PyFile)) :
    List.Chain' (fun a b => a ⊆ b) (m :: prefixModuleUnions m files) := by
  induction files generalizing m with
  | nil => simp [prefixModuleUnions]
  | cons pf rest ih =>
      rw [prefixModuleUnions, List.chain'_cons]
      exact ⟨Finset.subset_union_left, ih (m ∪ fileModules pf.2)⟩

/-- The pipeline builds a fresh analyzer per file, so a file's reported
total is the size of its own module set. -/
theorem analyze_file_total_modules (path : String) (f : PyFile) :
    ((analyze_file path (some f)).metrics.map
      (fun m => m.dependencies.total_modules)) = some (fileModules f).card := by
  cases h : f.ast? with
  | none =>
      simp [analyze_file, DependencyAnalyzer.analyze_file, DepState.init, fileModules, h]
  | some body =>
      simp [analyze_file, DependencyAnalyzer.analyze_file, DepState.init, fileModules, h,
        DepState.setImports, DepState.importsOf]

/-- C4 counterexample: scanning two one-import files, the second file's
reported total-modules count is 1 — the size of its own import set — and
not 2, the size of the union of modules seen across both files, so the
shared-across-files reading is false for the scan pipeline. -/
theorem dependency_count_not_shared_counterexample :
    ((runScan [(r"a.py", c4File1), (r"b.py", c4File2)]).map
        (fun r => r.metrics.map (fun m => m.dependencies.total_modules))) =
      [some 1, some 1] ∧
    (fileModules c4File1 ∪ fileModules c4File2).card = 2 := by
  refine ⟨by decide, by decide⟩

/-- C4 (amended): a `DependencyAnalyzer` instance does maintain a shared,
monotonically growing module set across the calls made on that same
instance, each call reporting the size of the union seen so far; but
`analyze_file` constructs a fresh instance per file, so in a scan each
file's reported total-modules count equals the number of distinct
modules of that file alone. -/
theorem dependency_totals (st : DepState) (files : List (String × PyFile))
    (path : String) (f : PyFile) :
    (depRunResults st files).map DepResult.total_modules =
      (prefixModuleUnions st.modules files).map Finset.card ∧
    List.Chain' (fun a b => a ⊆ b) (st.modules :: prefixModuleUnions st.modules files) ∧
    ((analyze_file path (some f)).metrics.map
      (fun m => m.dependencies.total_modules)) = some (fileModules f).card :=
  ⟨depRunResults_totals st files, prefixModuleUnions_chain st.modules files,
    analyze_file_total_modules path f⟩

/-!  ## C6 -/

/-- C6: the severity threshold changes only which issues are displayed
and counted.  In the JSON report the per-file `metrics` and `suggestions`
are identical for any two thresholds, and on a file with exactly one
info, one warning and one error issue the `warning` threshold keeps
exactly the warning and the error issue (2 issues) and drops the info
issue. -/
theorem severity_filter_frame (results : List AnalysisResult) (ms1 ms2 : MinSeverity) :
    ((generate_json_report results ms1).files.map (fun fd => (fd.metrics, fd.suggestions)) =
      (generate_json_report results ms2).files.map (fun fd => (fd.metrics, fd.suggestions))) ∧
    ((generate_json_report [c6Result] MinSeverity.warning).files.map JsonFileData.issues =
      [[warnIssueEx, errIssueEx]]) ∧
    (generate_json_report [c6Result] MinSeverity.warning).summary.total_issues = 2 ∧
    ((generate_json_report [c6Result] MinSeverity.warning).files.map JsonFileData.metrics =
      (generate_json_report [c6Result] MinSeverity.info).files.map JsonFileData.metrics) ∧
    ((generate_json_report [c6Result] MinSeverity.warning).files.map JsonFileData.suggestions =
      (generate_json_report [c6Result] MinSeverity.info).files.map JsonFileData.suggestions) := by
  refine ⟨?_, by decide, by decide, by decide, by decide⟩
  simp [generate_json_report, List.map_map, Function.comp]

/-!  ## C8: membership lemmas for the threshold issues and suggestions -/

/-- The high-complexity issue is present iff the threshold is exceeded. -/
theorem ccIssue_mem_iff (path : String) (f : PyFile) :
    (ccIssue (analyze_complexity f).cyclomatic_complexity ∈
        (analyze_file path (some f)).issues) ↔
      COMPLEXITY_THRESHOLDS_cyclomatic_complexity <
        (analyze_complexity f).cyclomatic_complexity := by
  rw [analyze_file_issues]
  simp [complexityIssues, docIssues, mem_ite_singleton, mem_security_iff,
    ccIssue, nestingIssue, longFunctionsIssue, funcDocIssue, classDocIssue]

/-- The deep-nesting issue is present iff the threshold is exceeded. -/
theorem nestingIssue_mem_iff (path : String) (f : PyFile) :
    (nestingIssue (analyze_complexity f).max_nesting_depth ∈
        (analyze_file path (some f)).issues) ↔
      COMPLEXITY_THRESHOLDS_nesting_depth < (analyze_complexity f).max_nesting_depth := by
  rw [analyze_file_issues]
  simp [complexityIssues, docIssues, mem_ite_singleton, mem_security_iff,
    ccIssue, nestingIssue, longFunctionsIssue, funcDocIssue, classDocIssue]

/-- The long-functions issue is present iff the average exceeds 50. -/
theorem longFunctionsIssue_mem_iff (path : String) (f : PyFile) :
    (longFunctionsIssue (analyze_complexity f).avg_function_length ∈
        (analyze_file path (some f)).issues) ↔
      (50 : ℚ) < (analyze_complexity f).avg_function_length := by
  rw [analyze_file_issues]
  simp [complexityIssues, docIssues, mem_ite_singleton, mem_security_iff,
    ccIssue, nestingIssue, longFunctionsIssue, funcDocIssue, classDocIssue]

/-- The function-documentation issue is present iff coverage is below 50. -/
theorem funcDocIssue_mem_iff (path : String) (f : PyFile) :
    (funcDocIssue (analyze_documentation f).function_docstring_coverage ∈
        (analyze_file path (some f)).issues) ↔
      (analyze_documentation f).function_docstring_coverage < 50 := by
  rw [analyze_file_issues]
  simp [complexityIssues, docIssues, mem_ite_singleton, mem_security_iff,
    ccIssue, nestingIssue, longFunctionsIssue, funcDocIssue, classDocIssue]

/-- The class-documentation issue is present iff coverage is below 70. -/
theorem classDocIssue_mem_iff (path : String) (f : PyFile) :
    (classDocIssue (analyze_documentation f).class_docstring_coverage ∈
        (analyze_file path (some f)).issues) ↔
      (analyze_documentation f).class_docstring_coverage < 70 := by
  rw [analyze_file_issues]
  simp [complexityIssues, docIssues, mem_ite_singleton, mem_security_iff,
    ccIssue, nestingIssue, longFunctionsIssue, funcDocIssue, classDocIssue]

/-- The break-down suggestion is present iff the threshold is exceeded. -/
theorem sugBreakDown_mem_iff (path : String) (f : PyFile) :
    (sugBreakDown ∈ (analyze_file path (some f)).suggestions) ↔
      COMPLEXITY_THRESHOLDS_cyclomatic_complexity <
        (analyze_complexity f).cyclomatic_complexity := by
  rw [analyze_file_suggestions]
  simp [complexitySuggestions, docSuggestions, mem_ite_singleton, sugBreakDown,
    sugReduceNesting, sugSplitLong, sugFunctionDocs, sugClassDocs]

/-- The reduce-nesting suggestion is present iff the threshold is exceeded. -/
theorem sugReduceNesting_mem_iff (path : String) (f : PyFile) :
    (sugReduceNesting ∈ (analyze_file path (some f)).suggestions) ↔
      COMPLEXITY_THRESHOLDS_nesting_depth < (analyze_complexity f).max_nesting_depth := by
  rw [analyze_file_suggestions]
  simp [complexitySuggestions, docSuggestions, mem_ite_singleton, sugBreakDown,
    sugReduceNesting, sugSplitLong, sugFunctionDocs, sugClassDocs]

/-- The split-long-functions suggestion is present iff the average
exceeds 50. -/
theorem sugSplitLong_mem_iff (path : String) (f : PyFile) :
    (sugSplitLong ∈ (analyze_file path (some f)).suggestions) ↔
      (50 : ℚ) < (analyze_complexity f).avg_function_length := by
  rw [analyze_file_suggestions]
  simp [complexitySuggestions, docSuggestions, mem_ite_singleton, sugBreakDown,
    sugReduceNesting, sugSplitLong, sugFunctionDocs, sugClassDocs]

/-- The add-function-docs suggestion is present iff coverage is below 50. -/
theorem sugFunctionDocs_mem_iff (path : String) (f : PyFile) :
    (sugFunctionDocs ∈ (analyze_file path (some f)).suggestions) ↔
      (analyze_documentation f).function_docstring_coverage < 50 := by
  rw [analyze_file_suggestions]
  simp [complexitySuggestions, docSuggestions, mem_ite_singleton, sugBreakDown,
    sugReduceNesting, sugSplitLong, sugFunctionDocs, sugClassDocs]

/-- The add-class-docs suggestion is present iff coverage is below 70. -/
theorem sugClassDocs_mem_iff (path : String) (f : PyFile) :
    (sugClassDocs ∈ (analyze_file path (some f)).suggestions) ↔
      (analyze_documentation f).class_docstring_coverage < 70 := by
  rw [analyze_file_suggestions]
  simp [complexitySuggestions, docSuggestions, mem_ite_singleton, sugBreakDown,
    sugReduceNesting, sugSplitLong, sugFunctionDocs, sugClassDocs]

/-- C8: `analyze_file` emits each threshold issue together with its
suggestion exactly when the corresponding strict comparison holds:
cyclomatic complexity > 10 (warning), max nesting depth > 4 (warning),
average function length > 50 (info), function docstring coverage < 50%
(info), class docstring coverage < 70% (info). -/
theorem threshold_issues_iff (path : String) (f : PyFile) :
    ((ccIssue (analyze_complexity f).cyclomatic_complexity ∈
          (analyze_file path (some f)).issues ∧
        sugBreakDown ∈ (analyze_file path (some f)).suggestions) ↔
      10 < (analyze_complexity f).cyclomatic_complexity) ∧
    ((nestingIssue (analyze_complexity f).max_nesting_depth ∈
          (analyze_file path (some f)).issues ∧
        sugReduceNesting ∈ (analyze_file path (some f)).suggestions) ↔
      4 < (analyze_complexity f).max_nesting_depth) ∧
    ((longFunctionsIssue (analyze_complexity f).avg_function_length ∈
          (analyze_file path (some f)).issues ∧
        sugSplitLong ∈ (analyze_file path (some f)).suggestions) ↔
      (50 : ℚ) < (analyze_complexity f).avg_function_length) ∧
    ((funcDocIssue (analyze_documentation f).function_docstring_coverage ∈
          (analyze_file path (some f)).issues ∧
        sugFunctionDocs ∈ (analyze_file path (some f)).suggestions) ↔
      (analyze_documentation f).function_docstring_coverage < 50) ∧
    ((classDocIssue (analyze_documentation f).class_docstring_coverage ∈
          (analyze_file path (some f)).issues ∧
        sugClassDocs ∈ (analyze_file path (some f)).suggestions) ↔
      (analyze_documentation f).class_docstring_coverage < 70) := by
  refine ⟨⟨fun hp => (ccIssue_mem_iff path f).mp hp.1,
    fun h => ⟨(ccIssue_mem_iff path f).mpr h, (sugBreakDown_mem_iff path f).mpr h⟩⟩,
    ⟨fun hp => (nestingIssue_mem_iff path f).mp hp.1,
    fun h => ⟨(nestingIssue_mem_iff path f).mpr h, (sugReduceNesting_mem_iff path f).mpr h⟩⟩,
    ⟨fun hp => (longFunctionsIssue_mem_iff path f).mp hp.1,
    fun h => ⟨(longFunctionsIssue_mem_iff path f).mpr h, (sugSplitLong_mem_iff path f).mpr h⟩⟩,
    ⟨fun hp => (funcDocIssue_mem_iff path f).mp hp.1,
    fun h => ⟨(funcDocIssue_mem_iff path f).mpr h, (sugFunctionDocs_mem_iff path f).mpr h⟩⟩,
    ⟨fun hp => (classDocIssue_mem_iff path f).mp hp.1,
    fun h => ⟨(classDocIssue_mem_iff path f).mpr h, (sugClassDocs_mem_iff path f).mpr h⟩⟩⟩

/-!  ## C1 -/

/-- C1 counterexample: a result holding one issue of severity `high` —
exactly as the security scanner emits them — is filtered out of both the
JSON and the text report at the `warning` threshold, so high-severity
issues are not included at every threshold. -/
theorem high_severity_excluded_counterexample :
    highIssueExample.severity = some sevHigh ∧
    (generate_json_report [highResult] MinSeverity.warning).summary.total_issues = 0 ∧
    ((generate_json_report [highResult] MinSeverity.warning).files.map JsonFileData.issues) =
      [[]] ∧
    (generate_text_report [highResult] MinSeverity.warning).total_issues = 0 := by
  refine ⟨by decide, by decide, by decide, by decide⟩

/-- C1 (amended): the report renderers assign an issue whose severity is
`high` the default level 1 (the same band as `info`), so such an issue is
displayed and counted exactly when the minimum severity is `info`, and is
excluded at the `warning` and `error` thresholds. -/
theorem high_severity_level (r : AnalysisResult) (results : List AnalysisResult)
    (ms : MinSeverity) (i : Issue) (hi : i ∈ r.issues) (hs : i.severity = some sevHigh) :
    issueLevel i = 1 ∧
    (i ∈ filterIssues ms r.issues ↔ ms = MinSeverity.info) ∧
    (generate_json_report results ms).files.map JsonFileData.issues =
      results.map (fun x => filterIssues ms x.issues) := by
  have hlev : issueLevel i = 1 := by
    simp [issueLevel, hs, sevHigh, sevInfo, sevWarning, sevError]
  refine ⟨hlev, ?_, ?_⟩
  · cases ms <;> simp [filterIssues, List.mem_filter, hi, hlev, minLevel]
  · simp [generate_json_report, List.map_map, Function.comp]

/-- C1 witness: the amended statement evaluated on the one-issue result
at the `warning` threshold. -/
theorem high_severity_level_witness :
    (highIssueExample ∈ highResult.issues ∧ highIssueExample.severity = some sevHigh) ∧
    issueLevel highIssueExample = 1 ∧
    (highIssueExample ∈ filterIssues MinSeverity.warning highResult.issues ↔
      MinSeverity.warning = MinSeverity.info) :=
  ⟨⟨by decide, by decide⟩,
    (high_severity_level highResult [highResult] MinSeverity.warning highIssueExample
      (by decide) (by decide)).1,
    (high_severity_level highResult [highResult] MinSeverity.warning highIssueExample
      (by decide) (by decide)).2.1⟩

/-!  ## C9 -/

/-- C9: in the renderers' shared severity filter, an issue with an absent
severity, or any severity string other than `info`, `warning`, `error`,
gets the lowest level 1, and is therefore excluded from the displayed and
counted issues of the JSON and text reports whenever the minimum severity
is `warning` or `error`. -/
theorem nonstandard_severity_lowest (i : Issue)
    (h : i.severity = none ∨
      ∃ s, i.severity = some s ∧ s ≠ sevInfo ∧ s ≠ sevWarning ∧ s ≠ sevError) :
    issueLevel i = 1 ∧
    (∀ (ms : MinSeverity) (issues : List Issue),
        ms ≠ MinSeverity.info → i ∉ filterIssues ms issues) ∧
    (∀ (results : List AnalysisResult) (ms : MinSeverity) (fd : JsonFileData),
        ms ≠ MinSeverity.info → fd ∈ (generate_json_report results ms).files →
          i ∉ fd.issues) ∧
    (∀ (results : List AnalysisResult) (ms : MinSeverity) (pr : String × List Issue),
        ms ≠ MinSeverity.info → pr ∈ (generate_text_report results ms).detailed →
          i ∉ pr.2) := by
  have hlev : issueLevel i = 1 := by
    rcases h with h0 | ⟨s, hs, h1, h2, h3⟩
    · simp [issueLevel, h0]
    · simp [issueLevel, hs, h1, h2, h3]
  have hnot : ∀ (ms : MinSeverity) (issues : List Issue),
      ms ≠ MinSeverity.info → i ∉ filterIssues ms issues := by
    intro ms issues hms hmem
    rw [filterIssues, List.mem_filter] at hmem
    have h2 := hmem.2
    cases ms with
    | info => exact hms rfl
    | warning => simp [minLevel, hlev] at h2
    | error => simp [minLevel, hlev] at h2
  refine ⟨hlev, hnot, ?_, ?_⟩
  · intro results ms fd hms hfd hmem
    simp only [generate_json_report, List.mem_map] at hfd
    rcases hfd with ⟨r, -, rfl⟩
    exact hnot ms r.issues hms hmem
  · intro results ms pr hms hpr hmem
    simp only [generate_text_report, List.mem_filter, List.mem_map] at hpr
    rcases hpr with ⟨⟨r, -, rfl⟩, -⟩
    exact hnot ms r.issues hms hmem

/-- C9 witness: the `high`-severity issue evaluated at the `warning`
threshold. -/
theorem nonstandard_severity_lowest_witness :
    (highIssueExample.severity = none ∨
      ∃ s, highIssueExample.severity = some s ∧
        s ≠ sevInfo ∧ s ≠ sevWarning ∧ s ≠ sevError) ∧
    issueLevel highIssueExample = 1 ∧
    highIssueExample ∉ filterIssues MinSeverity.warning [highIssueExample] :=
  ⟨Or.inr ⟨sevHigh, rfl, by decide, by decide, by decide⟩,
    (nonstandard_severity_lowest highIssueExample
      (Or.inr ⟨sevHigh, rfl, by decide, by decide, by decide⟩)).1,
    (nonstandard_severity_lowest highIssueExample
      (Or.inr ⟨sevHigh, rfl, by decide, by decide, by decide⟩)).2.1
      MinSeverity.warning [highIssueExample] (by decide)⟩

/-!  ## C7 -/

/-- C7: the scanner splits the text into 1-indexed lines and tests each
line case-insensitively against the fixed catalog: every emitted issue
has type `security`, severity `high`, a 1-based line number resolving to
an actual line, and the message of a catalog rule matching that line;
conversely every rule matching a line emits its issue.  Concretely: the
purely lexical scan flags `eval(` inside a string literal; a line
matching two rules yields two issues (no deduplication); `EVAL (` is
matched case-insensitively; and the second line of a two-line file is
reported as line 2. -/
theorem security_scan_behaviour :
    (∀ (f : PyFile) (i : Issue), i ∈ SecurityAnalyzer.analyze_file f →
        i.type = typeSecurity ∧ i.severity = some sevHigh ∧
        ∃ k line, i.line = some k ∧ 1 ≤ k ∧ f.lines[k - 1]? = some line ∧
          ∃ pm ∈ SECURITY_PATTERNS, rsearch pm.1 line = true ∧
            i.message = Msg.security pm.2 ∧ i.code = some (pyStrip line)) ∧
    (∀ (f : PyFile) (il : Nat × String) (pm : List Tok × String),
        il ∈ List.enumFrom 1 f.lines → pm ∈ SECURITY_PATTERNS →
        rsearch pm.1 il.2 = true →
        ({ type := typeSecurity, severity := some sevHigh,
           message := Msg.security pm.2, line := some il.1, threshold := none,
           code := some (pyStrip il.2) } : Issue) ∈ SecurityAnalyzer.analyze_file f) ∧
    SecurityAnalyzer.analyze_file c7StrFile = [evalStrIssue] ∧
    ((SecurityAnalyzer.analyze_file c7TwoFile).map Issue.message) =
      [Msg.security (r"Use of eval() can be dangerous"),
       Msg.security (r"Use of exec() can be dangerous")] ∧
    (SecurityAnalyzer.analyze_file c7UpperFile).length = 1 ∧
    ((SecurityAnalyzer.analyze_file c7TwoLineFile).map Issue.line) = [some 2] := by
  refine ⟨?_, ?_, by decide, by decide, by decide, by decide⟩
  · intro f i h
    rcases (mem_security_iff f i).mp h with ⟨il, hil, pm, hpm, hr, rfl⟩
    have hil2 : (il.1, il.2) ∈ List.enumFrom 1 f.lines := by simpa using hil
    have hk := List.mk_mem_enumFrom_iff_le_and_getElem?_sub.mp hil2
    exact ⟨rfl, rfl, il.1, il.2, rfl, hk.1, hk.2, pm, hpm, hr, rfl, rfl⟩
  · intro f il pm hil hpm hr
    exact (mem_security_iff f _).mpr ⟨il, hil, pm, hpm, hr, rfl⟩

/-- C7 witness: the characterization applied to the concrete
string-literal file and its emitted issue. -/
theorem security_scan_behaviour_witness :
    (evalStrIssue ∈ SecurityAnalyzer.analyze_file c7StrFile) ∧
    evalStrIssue.type = typeSecurity ∧ evalStrIssue.severity = some sevHigh :=
  ⟨by decide,
    (security_scan_behaviour.1 c7StrFile evalStrIssue (by decide)).1,
    (security_scan_behaviour.1 c7StrFile evalStrIssue (by decide)).2.1⟩

/-!  ## C10: counting lemmas by mutual structural induction -/

mutual

/-- The complexity visitor's function counter advances by the number of
function definitions (sync and async) in the subtree. -/
theorem cVisit_function_count (s : CState) (a : Ast) :
    (cVisit s a).function_count = s.function_count + defCount a := by
  cases a with
  | functionDef l e body =>
      show (cVisitList ((s.enterFunction l e).push) body).function_count = _
      rw [cVisitList_function_count]
      show s.function_count + 1 + defCountList body =
        s.function_count + (1 + defCountList body)
      omega
  | asyncFunctionDef l e body =>
      show (cVisitList ((s.enterFunction l e).push) body).function_count = _
      rw [cVisitList_function_count]
      show s.function_count + 1 + defCountList body =
        s.function_count + (1 + defCountList body)
      omega
  | classDef body =>
      show (cVisitList (({ s with class_count := s.class_count + 1 } : CState).push)
        body).function_count = _
      rw [cVisitList_function_count]
      rfl
  | ifStmt body orelse =>
      show (cVisitList (cVisitList (({ s with complexity := s.complexity + 1 } : CState).push)
        body) orelse).function_count = _
      rw [cVisitList_function_count, cVisitList_function_count]
      show s.function_count + defCountList body + defCountList orelse =
        s.function_count + (defCountList body + defCountList orelse)
      omega
  | whileStmt body orelse =>
      show (cVisitList (cVisitList (({ s with complexity := s.complexity + 1 } : CState).push)
        body) orelse).function_count = _
      rw [cVisitList_function_count, cVisitList_function_count]
      show s.function_count + defCountList body + defCountList orelse =
        s.function_count + (defCountList body + defCountList orelse)
      omega
  | forStmt body orelse =>
      show (cVisitList (cVisitList (({ s with complexity := s.complexity + 1 } : CState).push)
        body) orelse).function_count = _
      rw [cVisitList_function_count, cVisitList_function_count]
      show s.function_count + defCountList body + defCountList orelse =
        s.function_count + (defCountList body + defCountList orelse)
      omega
  | tryStmt body handlers orelse finalbody =>
      show (cVisitList (cVisitList (cVisitList (cVisitList
        (({ s with complexity := s.complexity + 1 } : CState).push) body) handlers) orelse)
          finalbody).function_count = _
      rw [cVisitList_function_count, cVisitList_function_count, cVisitList_function_count,
        cVisitList_function_count]
      show s.function_count + defCountList body + defCountList handlers +
          defCountList orelse + defCountList finalbody =
        s.function_count + (defCountList body + defCountList handlers +
          defCountList orelse + defCountList finalbody)
      omega
  | exceptHandler body =>
      show (cVisitList ({ s with complexity := s.complexity + 1 } : CState)
        body).function_count = _
      rw [cVisitList_function_count]
      rfl
  | importStmt names =>
      show s.function_count = s.function_count + 0
      omega
  | importFromStmt m =>
      show s.function_count = s.function_count + 0
      omega
  | exprStr t =>
      show s.function_count = s.function_count + 0
      omega
  | stmtOther children =>
      show (cVisitList s children).function_count = _
      rw [cVisitList_function_count]
      rfl

theorem cVisitList_function_count (s : CState) (l : AstList) :
    (cVisitList s l).function_count = s.function_count + defCountList l := by
  cases l with
  | nil =>
      show s.function_count = s.function_count + 0
      omega
  | cons a rest =>
      show (cVisitList (cVisit s a) rest).function_count = _
      rw [cVisitList_function_count, cVisit_function_count]
      show s.function_count + defCount a + defCountList rest =
        s.function_count + (defCount a + defCountList rest)
      omega

end

mutual

/-- A subtree without sync function or class definitions contributes
nothing to the documentation totals. -/
theorem docCounts_no_sync (a : Ast) (h : noSyncDefs a = true) :
    (docCounts a).total_functions = 0 ∧ (docCounts a).total_classes = 0 := by
  cases a with
  | functionDef l e body => simp [noSyncDefs] at h
  | asyncFunctionDef l e body => exact docCountsList_no_sync body h
  | classDef body => simp [noSyncDefs] at h
  | ifStmt body orelse =>
      rw [noSyncDefs, Bool.and_eq_true] at h
      have h1 := docCountsList_no_sync body h.1
      have h2 := docCountsList_no_sync orelse h.2
      simp [docCounts, DocCounts.add, h1.1, h1.2, h2.1, h2.2]
  | whileStmt body orelse =>
      rw [noSyncDefs, Bool.and_eq_true] at h
      have h1 := docCountsList_no_sync body h.1
      have h2 := docCountsList_no_sync orelse h.2
      simp [docCounts, DocCounts.add, h1.1, h1.2, h2.1, h2.2]
  | forStmt body orelse =>
      rw [noSyncDefs, Bool.and_eq_true] at h
      have h1 := docCountsList_no_sync body h.1
      have h2 := docCountsList_no_sync orelse h.2
      simp [docCounts, DocCounts.add, h1.1, h1.2, h2.1, h2.2]
  | tryStmt body handlers orelse finalbody =>
      rw [noSyncDefs, Bool.and_eq_true, Bool.and_eq_true, Bool.and_eq_true] at h
      have h1 := docCountsList_no_sync body h.1.1
      have h2 := docCountsList_no_sync handlers h.1.2
      have h3 := docCountsList_no_sync orelse h.2.1
      have h4 := docCountsList_no_sync finalbody h.2.2
      simp [docCounts, DocCounts.add, h1.1, h1.2, h2.1, h2.2, h3.1, h3.2, h4.1, h4.2]
  | exceptHandler body => exact docCountsList_no_sync body h
  | importStmt names => exact ⟨rfl, rfl⟩
  | importFromStmt m => exact ⟨rfl, rfl⟩
  | exprStr t => exact ⟨rfl, rfl⟩
  | stmtOther children => exact docCountsList_no_sync children h

theorem docCountsList_no_sync (l : AstList) (h : noSyncDefsList l = true) :
    (docCountsList l).total_functions = 0 ∧ (docCountsList l).total_classes = 0 := by
  cases l with
  | nil => exact ⟨rfl, rfl⟩
  | cons a rest =>
      rw [noSyncDefsList, Bool.and_eq_true] at h
      have h1 := docCounts_no_sync a h.1
      have h2 := docCountsList_no_sync rest h.2
      simp [docCountsList, DocCounts.add, h1.1, h1.2, h2.1, h2.2]

end

mutual

/-- A subtree holding an async definition contributes at least one
counted definition. -/
theorem defCount_pos_of_hasAsync (a : Ast) (h : hasAsyncDef a = true) : 1 ≤ defCount a := by
  cases a with
  | functionDef l e body =>
      show 1 ≤ 1 + defCountList body
      omega
  | asyncFunctionDef l e body =>
      show 1 ≤ 1 + defCountList body
      omega
  | classDef body => exact defCountList_pos_of_hasAsync body h
  | ifStmt body orelse =>
      rw [hasAsyncDef, Bool.or_eq_true] at h
      show 1 ≤ defCountList body + defCountList orelse
      rcases h with h | h
      · have := defCountList_pos_of_hasAsync body h
        omega
      · have := defCountList_pos_of_hasAsync orelse h
        omega
  | whileStmt body orelse =>
      rw [hasAsyncDef, Bool.or_eq_true] at h
      show 1 ≤ defCountList body + defCountList orelse
      rcases h with h | h
      · have := defCountList_pos_of_hasAsync body h
        omega
      · have := defCountList_pos_of_hasAsync orelse h
        omega
  | forStmt body orelse =>
      rw [hasAsyncDef, Bool.or_eq_true] at h
      show 1 ≤ defCountList body + defCountList orelse
      rcases h with h | h
      · have := defCountList_pos_of_hasAsync body h
        omega
      · have := defCountList_pos_of_hasAsync orelse h
        omega
  | tryStmt body handlers orelse finalbody =>
      rw [hasAsyncDef, Bool.or_eq_true, Bool.or_eq_true, Bool.or_eq_true] at h
      show 1 ≤ defCountList body + defCountList handlers + defCountList orelse +
        defCountList finalbody
      rcases h with (h | h) | (h | h)
      · have := defCountList_pos_of_hasAsync body h
        omega
      · have := defCountList_pos_of_hasAsync handlers h
        omega
      · have := defCountList_pos_of_hasAsync orelse h
        omega
      · have := defCountList_pos_of_hasAsync finalbody h
        omega
  | exceptHandler body => exact defCountList_pos_of_hasAsync body h
  | importStmt names => simp [hasAsyncDef] at h
  | importFromStmt m => simp [hasAsyncDef] at h
  | exprStr t => simp [hasAsyncDef] at h
  | stmtOther children => exact defCountList_pos_of_hasAsync children h

theorem defCountList_pos_of_hasAsync (l : AstList) (h : hasAsyncDefList l = true) :
    1 ≤ defCountList l := by
  cases l with
  | nil => simp [hasAsyncDefList] at h
  | cons a rest =>
      rw [hasAsyncDefList, Bool.or_eq_true] at h
      show 1 ≤ defCount a + defCountList rest
      rcases h with h | h
      · have := defCount_pos_of_hasAsync a h
        omega
      · have := defCountList_pos_of_hasAsync rest h
        omega

end

/-- C10: async function definitions are counted by the complexity
visitor but not by the documentation analyzer, so a parsed file holding
an async definition and no sync function or class definition reports a
positive complexity function count while the documentation metrics show
zero total functions and 0% function docstring coverage. -/
theorem async_functions_counting (f : PyFile) (body : AstList) (hb : f.ast? = some body)
    (hclean : noSyncDefsList body = true) (hasync : hasAsyncDefList body = true) :
    0 < (analyze_complexity f).function_count ∧
    (analyze_documentation f).total_functions = 0 ∧
    (analyze_documentation f).function_docstring_coverage = 0 := by
  have hfc := cVisitList_function_count CState.init body
  have hpos := defCountList_pos_of_hasAsync body hasync
  have hdoc := docCountsList_no_sync body hclean
  refine ⟨?_, ?_, ?_⟩
  · show 0 < (analyze_complexity f).function_count
    simp only [analyze_complexity, hb]
    rw [hfc]
    omega
  · simp only [analyze_documentation, hb]
    exact hdoc.1
  · simp only [analyze_documentation, hb]
    simp [hdoc.1]

/-- C10 witness: the counting facts on the concrete one-async-function
file. -/
theorem async_functions_counting_witness :
    (asyncOnlyFile.ast? = some asyncOnlyBody ∧ noSyncDefsList asyncOnlyBody = true ∧
      hasAsyncDefList asyncOnlyBody = true) ∧
    0 < (analyze_complexity asyncOnlyFile).function_count ∧
    (analyze_documentation asyncOnlyFile).total_functions = 0 :=
  ⟨⟨rfl, by decide, by decide⟩,
    (async_functions_counting asyncOnlyFile asyncOnlyBody rfl (by decide) (by decide)).1,
    (async_functions_counting asyncOnlyFile asyncOnlyBody rfl (by decide) (by decide)).2.1⟩
